import Mathlib

/-!
Shallow embedding of the Econ_Sentinel repository
(`src/backend/shared/risk_calculator.py`, `src/backend/shared/data_parser.py`,
`src/backend/shared/dynamodb_client.py`) and verification of the spec claims.

Python floats are modelled as exact rationals (ℚ); Python `int` as ℤ.
Binary floating-point rounding is outside the scope of this development.
-/

namespace EconSentinel

/-- Python `int()` applied to a number: truncation toward zero. -/
def pyInt (q : ℚ) : ℤ := if 0 ≤ q then ⌊q⌋ else ⌈q⌉

/-- Python `round` to the nearest integer, ties to even (banker's rounding),
on exact rationals. -/
def pyRoundInt (x : ℚ) : ℤ :=
  let f := ⌊x⌋
  let r := x - (f : ℚ)
  if r < 1/2 then f
  else if 1/2 < r then f + 1
  else if f % 2 = 0 then f else f + 1

/-- Python `round(x, 2)`: round to two decimal places. -/
def pyRound2 (x : ℚ) : ℚ := (pyRoundInt (x * 100) : ℚ) / 100

/-- The `Severity` enum of `risk_calculator.py` (a `str` Enum with the
three members NORMAL/WARNING/CRITICAL). -/
inductive Severity where
  | normal
  | warning
  | critical
deriving DecidableEq

/-- The string payload of each `Severity` member (`severity.value` in Python). -/
def Severity.value : Severity → String
  | .normal => "normal"
  | .warning => "warning"
  | .critical => "critical"

/-- Rank of a severity under the ordering normal < warning < critical
(used to state the monotonicity claim about `determine_severity`). -/
def sevRank : Severity → Nat
  | .normal => 0
  | .warning => 1
  | .critical => 2

/-- The dict returned by `RiskCalculator.calculate_risk`:
`{"pct_change": ..., "risk_score": ..., "severity": severity.value}`. -/
structure RiskResult where
  pct_change : ℚ
  risk_score : ℤ
  severity : String
deriving DecidableEq

namespace RiskCalculator

/-- `NORMAL_THRESHOLD = 5.0` in `risk_calculator.py`. -/
def NORMAL_THRESHOLD : ℚ := 5

/-- `WARNING_THRESHOLD = 15.0` in `risk_calculator.py`. -/
def WARNING_THRESHOLD : ℚ := 15

/-- `RiskCalculator.calculate_percent_change` from `risk_calculator.py`. -/
def calculate_percent_change (current_value moving_avg : ℚ) : ℚ :=
  if moving_avg = 0 then 0
  else (current_value - moving_avg) / moving_avg * 100

/-- `RiskCalculator.calculate_risk_score` from `risk_calculator.py`. -/
def calculate_risk_score (pct_change : ℚ) : ℤ :=
  let abs_change := |pct_change|
  if abs_change < NORMAL_THRESHOLD then
    min 30 (pyInt (abs_change * 6))
  else if abs_change < WARNING_THRESHOLD then
    let base_score : ℤ := 31
    let range_size := abs_change - NORMAL_THRESHOLD
    let max_range := WARNING_THRESHOLD - NORMAL_THRESHOLD
    base_score + pyInt (range_size / max_range * 39)
  else
    let base_score : ℤ := 71
    let range_size := abs_change - WARNING_THRESHOLD
    let additional_score := min 29 (pyInt (range_size / 35 * 29))
    base_score + additional_score

/-- `RiskCalculator.determine_severity` from `risk_calculator.py`. -/
def determine_severity (pct_change : ℚ) : Severity :=
  let abs_change := |pct_change|
  if abs_change < NORMAL_THRESHOLD then .normal
  else if abs_change < WARNING_THRESHOLD then .warning
  else .critical

/-- `RiskCalculator.calculate_risk` from `risk_calculator.py`. -/
def calculate_risk (current_value moving_avg : ℚ) : RiskResult :=
  let pct_change := calculate_percent_change current_value moving_avg
  let risk_score := calculate_risk_score pct_change
  let severity := determine_severity pct_change
  ⟨pyRound2 pct_change, risk_score, severity.value⟩

end RiskCalculator

/-! ## Character and string helpers

Python strings are modelled as `List Char`. The helpers below model the
exact Python string operations used by `data_parser.py` and
`dynamodb_client.py`. -/

/-- ASCII decimal digit test (the `\d` character class restricted to ASCII;
non-ASCII Unicode digits are outside the scope of this model). -/
def isDigitC (c : Char) : Bool := 48 ≤ c.toNat && c.toNat ≤ 57

/-- Numeric value of an ASCII digit. -/
def digitVal (c : Char) : Nat := c.toNat - 48

/-- ASCII whitespace (the `\s` class restricted to ASCII). -/
def isPySpace (c : Char) : Bool :=
  c == ' ' || c == '\t' || c == '\n' || c == '\r' || c == '\x0b' || c == '\x0c'

/-- Python's `c in s` membership test for a single-character needle. -/
def hasChar (c : Char) : List Char → Bool
  | [] => false
  | a :: r => a == c || hasChar c r

/-- Python's `s[-6:]`: the last six characters (the whole string when
shorter than six characters). -/
def pyLast6 (s : List Char) : List Char := s.drop (s.length - 6)

/-! ## `data_parser.py`: `DataParser.normalize_timestamp`

The third branch of `normalize_timestamp` calls
`datetime.strptime(timestamp, fmt)` for the formats `%Y-%m-%d`,
`%Y-%m-%d %H:%M:%S`, `%Y-%m-%dT%H:%M:%S` in this order. CPython's
`_strptime` compiles each format to a regex (case-insensitively, so a
literal `T` also matches `t`; a space matches one or more whitespace
characters) with `%Y ↦ \d\d\d\d`, `%m ↦ 1[0-2]|0[1-9]|[1-9]`,
`%d ↦ 3[01]|[12]\d|0[1-9]|[1-9]`, `%H ↦ 2[0-3]|[0-1]\d|\d`,
`%M,%S ↦ [0-5]\d|\d`, requires the regex to consume the whole string,
and finally validates the fields through the `datetime` constructor
(year in `[1, 9999]`, day at most the month length). Because every
numeric field is immediately followed by a non-digit separator (or the
end of the string), the regex match is equivalent to reading the maximal
digit run for each field, which is how it is modelled here. -/

/-- Token accepted by the `%m` regex alternation `1[0-2]|0[1-9]|[1-9]`. -/
def validMonthTok : List Char → Bool
  | [a] => 49 ≤ a.toNat && a.toNat ≤ 57
  | [a, b] => (a == '0' && 49 ≤ b.toNat && b.toNat ≤ 57) ||
      (a == '1' && 48 ≤ b.toNat && b.toNat ≤ 50)
  | _ => false

/-- Token accepted by the `%d` regex alternation `3[01]|[12]\d|0[1-9]|[1-9]`. -/
def validDayTok : List Char → Bool
  | [a] => 49 ≤ a.toNat && a.toNat ≤ 57
  | [a, b] => (a == '3' && (b == '0' || b == '1')) ||
      ((a == '1' || a == '2') && isDigitC b) ||
      (a == '0' && 49 ≤ b.toNat && b.toNat ≤ 57)
  | _ => false

/-- Token accepted by the `%H` regex alternation `2[0-3]|[0-1]\d|\d`. -/
def validHourTok : List Char → Bool
  | [a] => isDigitC a
  | [a, b] => ((a == '0' || a == '1') && isDigitC b) ||
      (a == '2' && 48 ≤ b.toNat && b.toNat ≤ 51)
  | _ => false

/-- Token accepted by the `%M`/`%S` regex alternation `[0-5]\d|\d`. -/
def validMinSecTok : List Char → Bool
  | [a] => isDigitC a
  | [a, b] => (48 ≤ a.toNat && a.toNat ≤ 53) && isDigitC b
  | _ => false

/-- Numeric value of a digit token. -/
def tokVal (t : List Char) : Nat := t.foldl (fun a c => a * 10 + digitVal c) 0

/-- Gregorian leap-year rule used by Python's `datetime`. -/
def isLeapYear (y : Nat) : Bool := y % 4 == 0 && (y % 100 != 0 || y % 400 == 0)

/-- Length of a month, as validated by the `datetime` constructor. -/
def daysInMonth (y m : Nat) : Nat :=
  if m == 2 then (if isLeapYear y then 29 else 28)
  else if m == 4 || m == 6 || m == 9 || m == 11 then 30 else 31

/-- The datetime value produced by a successful `strptime`. -/
structure PyDateTime where
  year : Nat
  month : Nat
  day : Nat
  hour : Nat
  minute : Nat
  second : Nat
deriving DecidableEq

/-- Field validation performed by the `datetime` constructor. -/
def validDate (y m d : Nat) : Bool :=
  1 ≤ y && y ≤ 9999 && 1 ≤ m && m ≤ 12 && 1 ≤ d && d ≤ daysInMonth y m

/-- Parse the `%Y-%m-%d` prefix shared by all three formats, returning the
fields and the unconsumed remainder. -/
def parseDatePrefix (s : List Char) : Option (Nat × Nat × Nat × List Char) :=
  let y := s.takeWhile isDigitC
  let r1 := s.dropWhile isDigitC
  if y.length == 4 then
    match r1 with
    | '-' :: r2 =>
      let m := r2.takeWhile isDigitC
      let r3 := r2.dropWhile isDigitC
      if validMonthTok m then
        match r3 with
        | '-' :: r4 =>
          let d := r4.takeWhile isDigitC
          let r5 := r4.dropWhile isDigitC
          if validDayTok d then some (tokVal y, tokVal m, tokVal d, r5) else none
        | _ => none
      else none
    | _ => none
  else none

/-- Parse a trailing `%H:%M:%S`; the whole remainder must be consumed
(`strptime` rejects unconverted trailing data). -/
def parseTimeExact (s : List Char) : Option (Nat × Nat × Nat) :=
  let h := s.takeWhile isDigitC
  let r1 := s.dropWhile isDigitC
  if validHourTok h then
    match r1 with
    | ':' :: r2 =>
      let mi := r2.takeWhile isDigitC
      let r3 := r2.dropWhile isDigitC
      if validMinSecTok mi then
        match r3 with
        | ':' :: r4 =>
          let sec := r4.takeWhile isDigitC
          let r5 := r4.dropWhile isDigitC
          if validMinSecTok sec && r5.isEmpty then some (tokVal h, tokVal mi, tokVal sec)
          else none
        | _ => none
      else none
    | _ => none
  else none

/-- `datetime.strptime(s, "%Y-%m-%d")`. -/
def strptimeDate (s : List Char) : Option PyDateTime :=
  match parseDatePrefix s with
  | some (y, m, d, rest) =>
    if rest.isEmpty && validDate y m d then some ⟨y, m, d, 0, 0, 0⟩ else none
  | none => none

/-- `datetime.strptime(s, "%Y-%m-%d %H:%M:%S")` (the literal space matches
one or more whitespace characters). -/
def strptimeSpace (s : List Char) : Option PyDateTime :=
  match parseDatePrefix s with
  | some (y, m, d, rest) =>
    let sp := rest.takeWhile isPySpace
    let r := rest.dropWhile isPySpace
    if sp.isEmpty then none
    else
      match parseTimeExact r with
      | some (h, mi, sec) => if validDate y m d then some ⟨y, m, d, h, mi, sec⟩ else none
      | none => none
  | none => none

/-- `datetime.strptime(s, "%Y-%m-%dT%H:%M:%S")` (the literal `T` matches
case-insensitively). -/
def strptimeT (s : List Char) : Option PyDateTime :=
  match parseDatePrefix s with
  | some (y, m, d, rest) =>
    match rest with
    | c :: r =>
      if c == 'T' || c == 't' then
        match parseTimeExact r with
        | some (h, mi, sec) => if validDate y m d then some ⟨y, m, d, h, mi, sec⟩ else none
        | none => none
      else none
    | [] => none
  | none => none

/-- The `for fmt in [...]` loop of `normalize_timestamp`: the first format
that parses wins. -/
def tryFormats (s : List Char) : Option PyDateTime :=
  (strptimeDate s) <|> (strptimeSpace s) <|> (strptimeT s)

/-- The ASCII digit character for `n < 10`. -/
def dchar (n : Nat) : Char :=
  if n == 0 then '0' else if n == 1 then '1' else if n == 2 then '2'
  else if n == 3 then '3' else if n == 4 then '4' else if n == 5 then '5'
  else if n == 6 then '6' else if n == 7 then '7' else if n == 8 then '8' else '9'

/-- Zero-padded two-digit field (`%m`, `%d`, `%H`, `%M`, `%S`; fields of a
validated datetime are below 100). -/
def pad2 (n : Nat) : List Char := [dchar (n / 10 % 10), dchar (n % 10)]

/-- Zero-padded four-digit year (`%Y`; a validated year is below 10000). -/
def pad4 (n : Nat) : List Char :=
  [dchar (n / 1000 % 10), dchar (n / 100 % 10), dchar (n / 10 % 10), dchar (n % 10)]

/-- `dt.strftime("%Y-%m-%dT%H:%M:%S")`. -/
def strftimeISO (t : PyDateTime) : List Char :=
  pad4 t.year ++ '-' :: (pad2 t.month ++ '-' :: (pad2 t.day ++ 'T' ::
    (pad2 t.hour ++ ':' :: (pad2 t.minute ++ ':' :: pad2 t.second))))

/-- Test for the canonical shape `YYYY-MM-DDTHH:MM:SSZ` (the spec's
"reformatted as YYYY-MM-DDTHH:MM:SS + Z"). -/
def isCanonicalZ (s : List Char) : Bool :=
  match s with
  | [y1, y2, y3, y4, a1, m1, m2, a2, d1, d2, t1, h1, h2, c1, n1, n2, c2, x1, x2, z1] =>
    isDigitC y1 && isDigitC y2 && isDigitC y3 && isDigitC y4 && a1 == '-' &&
    isDigitC m1 && isDigitC m2 && a2 == '-' && isDigitC d1 && isDigitC d2 &&
    t1 == 'T' && isDigitC h1 && isDigitC h2 && c1 == ':' && isDigitC n1 &&
    isDigitC n2 && c2 == ':' && isDigitC x1 && isDigitC x2 && z1 == 'Z'
  | _ => false

/-- First branch guard of `normalize_timestamp`:
`'T' in timestamp and ('Z' in timestamp or '+' in timestamp or '-' in timestamp[-6:])`. -/
def isoHeuristic (s : List Char) : Bool :=
  hasChar 'T' s && (hasChar 'Z' s || hasChar '+' s || hasChar '-' (pyLast6 s))

/-- Second branch guard of `normalize_timestamp`:
`len(timestamp) == 10 and timestamp.count('-') == 2`. -/
def bareDateShape (s : List Char) : Bool :=
  s.length == 10 && s.count '-' == 2

/-- `DataParser.normalize_timestamp` from `data_parser.py`. -/
def normalize_timestamp (timestamp : List Char) : List Char :=
  if isoHeuristic timestamp then timestamp
  else if bareDateShape timestamp then timestamp ++ "T00:00:00Z".toList
  else
    match tryFormats timestamp with
    | some dt => strftimeISO dt ++ ['Z']
    | none => timestamp

/-! ## `dynamodb_client.py`

The DynamoDB table is modelled as the list of stored items; a query on it is
a filter over the sort-key range (DynamoDB compares string sort keys by
their UTF-8 bytes, i.e. lexicographically for ASCII), returned in
descending timestamp order under `ScanIndexForward=False`. -/

/-- A Python runtime error. -/
inductive PyError where
  | nameError (missing : String)
deriving DecidableEq

/-- An item of the `risk_scores` table, restricted to the fields the
verified operations read (`metric`, `timestamp`, `value`); the other fields
written by `save_risk_score` never influence them. -/
structure RiskScoreItem where
  metric : String
  timestamp : List Char
  value : ℚ
deriving DecidableEq

/-- An item of the `user_alert_rules` table. -/
structure AlertRule where
  user_id : String
  metric : String
  threshold : ℚ
  enabled : Bool
  created_at : List Char
deriving DecidableEq

/-- The names bound at module level in `dynamodb_client.py`: the imports
`os`, `boto3`, `List`, `Dict`, `Optional`, `datetime`, `timedelta`,
`Decimal`, `Key` and the class `DynamoDBClient`. The line
`from datetime import datetime, timedelta` does not bind `timezone`, and
`timezone` is not a Python builtin. -/
def dynamodbModuleGlobals : List String :=
  ["os", "boto3", "List", "Dict", "Optional", "datetime", "timedelta",
   "Decimal", "Key", "DynamoDBClient"]

/-- Global-name resolution inside `dynamodb_client.py`: referencing a name
bound neither at module level nor as a builtin raises `NameError`. -/
def resolveGlobal (n : String) : Except PyError Unit :=
  if dynamodbModuleGlobals.contains n then .ok () else .error (.nameError n)

/-- Lexicographic byte order on ASCII strings, the order of DynamoDB string
sort keys (`Key.between` is inclusive at both ends). -/
def lexLe : List Char → List Char → Bool
  | [], _ => true
  | _ :: _, [] => false
  | a :: as, b :: bs =>
    if a.toNat < b.toNat then true
    else if b.toNat < a.toNat then false
    else lexLe as bs

/-- Strict lexicographic order (used by the spec-side half-open window). -/
def lexLt (a b : List Char) : Bool := lexLe a b && !(a == b)

/-- Insertion into a list already in descending timestamp order. -/
def insertDesc (it : RiskScoreItem) : List RiskScoreItem → List RiskScoreItem
  | [] => [it]
  | x :: xs =>
    if lexLe x.timestamp it.timestamp then it :: x :: xs else x :: insertDesc it xs

/-- Descending timestamp order, in which a `ScanIndexForward=False` query
returns the matching items. -/
def sortDescByTimestamp : List RiskScoreItem → List RiskScoreItem
  | [] => []
  | x :: xs => insertDesc x (sortDescByTimestamp xs)

/-- `DynamoDBClient.get_scores_time_series` from `dynamodb_client.py`. -/
def get_scores_time_series (store : List RiskScoreItem) (metric : String)
    (start_date end_date : List Char) (limit : Nat) : List RiskScoreItem :=
  let start_date :=
    if start_date.length == 10 then start_date ++ "T00:00:00Z".toList else start_date
  let end_date :=
    if end_date.length == 10 then end_date ++ "T23:59:59Z".toList else end_date
  (sortDescByTimestamp (store.filter fun it =>
      it.metric == metric && lexLe start_date it.timestamp
        && lexLe it.timestamp end_date)).take limit

/-- A calendar date. `datetime.now(...)` enters the verified operations only
through `strftime('%Y-%m-%dT00:00:00Z')` and `strftime('%Y-%m-%dT23:59:59Z')`,
which read the date fields alone, so the current instant is modelled by its
UTC date, passed explicitly as a parameter. -/
structure PyDate where
  year : Nat
  month : Nat
  day : Nat
deriving DecidableEq

/-- The calendar day before `d`. -/
def prevDay (d : PyDate) : PyDate :=
  if 1 < d.day then ⟨d.year, d.month, d.day - 1⟩
  else if 1 < d.month then ⟨d.year, d.month - 1, daysInMonth d.year (d.month - 1)⟩
  else ⟨d.year - 1, 12, 31⟩

/-- `dt - timedelta(days=n)` on the date fields. -/
def subDays (d : PyDate) : Nat → PyDate
  | 0 => d
  | n + 1 => subDays (prevDay d) n

/-- `dt.strftime('%Y-%m-%dT00:00:00Z')`. -/
def strftimeDayStart (d : PyDate) : List Char :=
  pad4 d.year ++ '-' :: (pad2 d.month ++ '-' :: (pad2 d.day ++ "T00:00:00Z".toList))

/-- `dt.strftime('%Y-%m-%dT23:59:59Z')`. -/
def strftimeDayEnd (d : PyDate) : List Char :=
  pad4 d.year ++ '-' :: (pad2 d.month ++ '-' :: (pad2 d.day ++ "T23:59:59Z".toList))

/-- `DynamoDBClient.get_recent_scores_for_average` from `dynamodb_client.py`.
Its first statement, `end_date = datetime.now(timezone.utc)`, resolves the
global name `timezone`, which is unbound in this module, so every call
raises `NameError` there; the remaining statements are kept faithfully in
the (unreachable) success branch, with the current UTC date passed
explicitly as `now`. -/
def get_recent_scores_for_average (store : List RiskScoreItem) (now : PyDate)
    (metric : String) (days : Nat) : Except PyError (List RiskScoreItem) :=
  match resolveGlobal "timezone" with
  | .error e => .error e
  | .ok _ =>
    let end_date := now
    let start_date := subDays now days
    let start_iso := strftimeDayStart start_date
    let end_iso := strftimeDayEnd end_date
    .ok (get_scores_time_series store metric start_iso end_iso 1000)

/-- `DynamoDBClient.calculate_moving_average` from `dynamodb_client.py`. -/
def calculate_moving_average (store : List RiskScoreItem) (now : PyDate)
    (metric : String) (days : Nat) : Except PyError (Option ℚ) :=
  match get_recent_scores_for_average store now metric days with
  | .error e => .error e
  | .ok recent_scores =>
    if recent_scores.isEmpty then .ok none
    else
      let values := recent_scores.map (·.value)
      if !values.isEmpty then .ok (some (values.sum / (values.length : ℚ)))
      else .ok none

/-- Python `str.replace("+00:00", "Z")`: left-to-right, non-overlapping. -/
def replacePlus0000 : List Char → List Char
  | '+' :: '0' :: '0' :: ':' :: '0' :: '0' :: rest => 'Z' :: replacePlus0000 rest
  | c :: rest => c :: replacePlus0000 rest
  | [] => []

/-- `put_item` on the `user_alert_rules` table: an upsert keyed by
`(user_id, metric)`. -/
def putAlertRule (rules : List AlertRule) (r : AlertRule) : List AlertRule :=
  rules.filter (fun x => !(x.user_id == r.user_id && x.metric == r.metric)) ++ [r]

/-- `DynamoDBClient.save_alert_rule` from `dynamodb_client.py`. Building the
item dict evaluates `datetime.now(timezone.utc).isoformat().replace(...)`
for `created_at`, and resolving the unbound global `timezone` raises
`NameError` before `put_item` runs; the (unreachable) success branch keeps
the remaining statements, with the `isoformat()` string of the current UTC
time passed explicitly as `nowIso`. -/
def save_alert_rule (rules : List AlertRule) (nowIso : List Char)
    (user_id metric : String) (threshold : ℚ) (enabled : Bool) :
    Except PyError (List AlertRule) :=
  match resolveGlobal "timezone" with
  | .error e => .error e
  | .ok _ =>
    let created_at := replacePlus0000 nowIso
    .ok (putAlertRule rules ⟨user_id, metric, threshold, enabled, created_at⟩)

/-- Modelled from the spec (§4.3, Moving-Average Aggregator), for comparison
with the code: the unweighted arithmetic mean of the stored values of
`metric` whose timestamps lie in the half-open window
`[as_of - window_days, as_of)` (exclusive upper bound), absent when the
window holds no observation. `as_of` is an instant at the start of a day. -/
def spec_moving_average (store : List RiskScoreItem) (metric : String)
    (as_of : PyDate) (window_days : Nat) : Option ℚ :=
  let lo := strftimeDayStart (subDays as_of window_days)
  let hi := strftimeDayStart as_of
  let values := (store.filter fun it =>
      it.metric == metric && lexLe lo it.timestamp && lexLt it.timestamp hi).map (·.value)
  if values.isEmpty then none else some (values.sum / (values.length : ℚ))

/-- A concrete store with two observations of one metric inside the 30-day
window before 2024-03-10 (mean value 5). -/
def exampleStore : List RiskScoreItem :=
  [⟨"freight_cost_index", "2024-03-05T00:00:00Z".toList, 4⟩,
   ⟨"freight_cost_index", "2024-03-06T00:00:00Z".toList, 6⟩]

/-! ## Lemmas about the risk calculator -/

lemma pyInt_of_nonneg {q : ℚ} (h : 0 ≤ q) : pyInt q = ⌊q⌋ := if_pos h

lemma severity_normal_iff (p : ℚ) :
    RiskCalculator.determine_severity p = .normal ↔ |p| < 5 := by
  simp only [RiskCalculator.determine_severity, RiskCalculator.NORMAL_THRESHOLD,
    RiskCalculator.WARNING_THRESHOLD]
  split_ifs with h1 h2 <;> simp_all

lemma severity_warning_iff (p : ℚ) :
    RiskCalculator.determine_severity p = .warning ↔ 5 ≤ |p| ∧ |p| < 15 := by
  simp only [RiskCalculator.determine_severity, RiskCalculator.NORMAL_THRESHOLD,
    RiskCalculator.WARNING_THRESHOLD]
  split_ifs with h1 h2 <;> simp_all

lemma severity_critical_iff (p : ℚ) :
    RiskCalculator.determine_severity p = .critical ↔ 15 ≤ |p| := by
  simp only [RiskCalculator.determine_severity, RiskCalculator.NORMAL_THRESHOLD,
    RiskCalculator.WARNING_THRESHOLD]
  split_ifs with h1 h2 <;> simp_all
  linarith

lemma score_of_lt5 {p : ℚ} (h : |p| < 5) :
    RiskCalculator.calculate_risk_score p = min 30 ⌊|p| * 6⌋ := by
  simp only [RiskCalculator.calculate_risk_score, RiskCalculator.NORMAL_THRESHOLD,
    RiskCalculator.WARNING_THRESHOLD]
  rw [if_pos h, pyInt_of_nonneg (by positivity)]

lemma score_of_mid {p : ℚ} (h1 : ¬ |p| < 5) (h2 : |p| < 15) :
    RiskCalculator.calculate_risk_score p = 31 + ⌊(|p| - 5) / 10 * 39⌋ := by
  have h5 : (5 : ℚ) ≤ |p| := not_lt.1 h1
  simp only [RiskCalculator.calculate_risk_score, RiskCalculator.NORMAL_THRESHOLD,
    RiskCalculator.WARNING_THRESHOLD]
  rw [if_neg h1, if_pos h2,
    pyInt_of_nonneg (mul_nonneg (div_nonneg (by linarith) (by norm_num)) (by norm_num))]
  norm_num

lemma score_of_ge15 {p : ℚ} (h : ¬ |p| < 15) :
    RiskCalculator.calculate_risk_score p = 71 + min 29 ⌊(|p| - 15) / 35 * 29⌋ := by
  have h15 : (15 : ℚ) ≤ |p| := not_lt.1 h
  simp only [RiskCalculator.calculate_risk_score, RiskCalculator.NORMAL_THRESHOLD,
    RiskCalculator.WARNING_THRESHOLD]
  rw [if_neg (by intro hc; linarith), if_neg h,
    pyInt_of_nonneg (mul_nonneg (div_nonneg (by linarith) (by norm_num)) (by norm_num))]

/-! ## The claims -/

/-- Claim C3, counterexample: at `current_value = 110`, `moving_avg = 100`
the returned `risk_score` is not `35` (it is `31 + int((5/10)*39) = 50`). -/
theorem C3_counterexample : (RiskCalculator.calculate_risk 110 100).risk_score ≠ 35 := by
  norm_num [RiskCalculator.calculate_risk, RiskCalculator.calculate_percent_change,
    RiskCalculator.calculate_risk_score, RiskCalculator.determine_severity,
    RiskCalculator.NORMAL_THRESHOLD, RiskCalculator.WARNING_THRESHOLD,
    pyRound2, pyRoundInt, pyInt, Severity.value, abs_of_nonneg]

/-- Claim C3 (amended): for `current_value = 110` and `moving_avg = 100`,
`calculate_risk` returns `pct_change = 10.0`, `risk_score = 50` and severity
`warning`. -/
theorem C3_risk_at_110_100 :
    RiskCalculator.calculate_risk 110 100 = ⟨10, 50, "warning"⟩ := by
  norm_num [RiskCalculator.calculate_risk, RiskCalculator.calculate_percent_change,
    RiskCalculator.calculate_risk_score, RiskCalculator.determine_severity,
    RiskCalculator.NORMAL_THRESHOLD, RiskCalculator.WARNING_THRESHOLD,
    pyRound2, pyRoundInt, pyInt, Severity.value, abs_of_nonneg]

/-- Claim C4: band-boundary behaviour. For `|pct_change|` in `[14/3, 5)` the
score is in `{28, 29}` and the severity is normal; at `|pct_change| = 5`
the severity flips to warning and the score is `31`; on `[5, 15)` the
severity is warning; at `|pct_change| = 15` the severity flips to critical
and the score is `71`. -/
theorem C4_band_boundaries :
    (∀ p : ℚ, 14/3 ≤ |p| → |p| < 5 →
      (RiskCalculator.calculate_risk_score p = 28 ∨
        RiskCalculator.calculate_risk_score p = 29) ∧
      RiskCalculator.determine_severity p = .normal) ∧
    (∀ p : ℚ, |p| = 5 →
      RiskCalculator.determine_severity p = .warning ∧
      RiskCalculator.calculate_risk_score p = 31) ∧
    (∀ p : ℚ, 5 ≤ |p| → |p| < 15 → RiskCalculator.determine_severity p = .warning) ∧
    (∀ p : ℚ, |p| = 15 →
      RiskCalculator.determine_severity p = .critical ∧
      RiskCalculator.calculate_risk_score p = 71) := by
  refine ⟨fun p h1 h2 => ?_, fun p h => ?_, fun p h1 h2 => ?_, fun p h => ?_⟩
  · have hlo : (28 : ℤ) ≤ ⌊|p| * 6⌋ := Int.le_floor.2 (by push_cast; linarith)
    have hhi : ⌊|p| * 6⌋ < 30 := Int.floor_lt.2 (by push_cast; linarith)
    refine ⟨?_, (severity_normal_iff p).2 h2⟩
    rw [score_of_lt5 h2, min_eq_right (by omega)]
    omega
  · refine ⟨(severity_warning_iff p).2 ⟨le_of_eq h.symm, by rw [h]; norm_num⟩, ?_⟩
    rw [score_of_mid (by rw [h]; norm_num) (by rw [h]; norm_num), h]
    norm_num
  · exact (severity_warning_iff p).2 ⟨h1, h2⟩
  · refine ⟨(severity_critical_iff p).2 (le_of_eq h.symm), ?_⟩
    rw [score_of_ge15 (by rw [h]; norm_num), h]
    norm_num

/-- Witness for C4 at the concrete inputs `14/3`, `5`, `7` and `15`. -/
theorem C4_band_boundaries_witness :
    ((RiskCalculator.calculate_risk_score (14/3) = 28 ∨
        RiskCalculator.calculate_risk_score (14/3) = 29) ∧
      RiskCalculator.determine_severity (14/3) = .normal) ∧
    (RiskCalculator.determine_severity 5 = .warning ∧
      RiskCalculator.calculate_risk_score 5 = 31) ∧
    RiskCalculator.determine_severity 7 = .warning ∧
    (RiskCalculator.determine_severity 15 = .critical ∧
      RiskCalculator.calculate_risk_score 15 = 71) :=
  ⟨C4_band_boundaries.1 (14/3) (by norm_num [abs_of_nonneg]) (by norm_num [abs_of_nonneg]),
   C4_band_boundaries.2.1 5 (by norm_num),
   C4_band_boundaries.2.2.1 7 (by norm_num) (by norm_num),
   C4_band_boundaries.2.2.2 15 (by norm_num)⟩

/-- Claim C5: the score is an integer in `[0, 100]`; in the critical band it
equals `71 + min(29, floor(((|pct| - 15) / 35) * 29))` and lies in
`[71, 100]`; it is exactly `100` once `|pct| ≥ 50`; and
`calculate_risk 160 100` returns `(60.0, 100, critical)`. -/
theorem C5_score_range_and_critical_band :
    (∀ p : ℚ, 0 ≤ RiskCalculator.calculate_risk_score p ∧
      RiskCalculator.calculate_risk_score p ≤ 100) ∧
    (∀ p : ℚ, 15 ≤ |p| →
      RiskCalculator.calculate_risk_score p = 71 + min 29 ⌊(|p| - 15) / 35 * 29⌋ ∧
      71 ≤ RiskCalculator.calculate_risk_score p) ∧
    (∀ p : ℚ, 50 ≤ |p| → RiskCalculator.calculate_risk_score p = 100) ∧
    RiskCalculator.calculate_risk 160 100 = ⟨60, 100, "critical"⟩ := by
  have habs : ∀ p : ℚ, 0 ≤ |p| := fun p => abs_nonneg p
  have hcrit : ∀ p : ℚ, 15 ≤ |p| →
      RiskCalculator.calculate_risk_score p = 71 + min 29 ⌊(|p| - 15) / 35 * 29⌋ ∧
      0 ≤ min 29 ⌊(|p| - 15) / 35 * 29⌋ ∧ min 29 ⌊(|p| - 15) / 35 * 29⌋ ≤ 29 := by
    intro p hp
    have hnn : (0 : ℚ) ≤ (|p| - 15) / 35 * 29 :=
      mul_nonneg (div_nonneg (by linarith) (by norm_num)) (by norm_num)
    refine ⟨score_of_ge15 (not_lt.2 hp), le_min (by norm_num) ?_, min_le_left _ _⟩
    exact Int.le_floor.2 (by push_cast; exact hnn)
  refine ⟨fun p => ?_, fun p hp => ?_, fun p hp => ?_, ?_⟩
  · by_cases h5 : |p| < 5
    · rw [score_of_lt5 h5]
      have h0 : (0 : ℤ) ≤ ⌊|p| * 6⌋ := Int.le_floor.2 (by push_cast; positivity)
      have h30 := min_le_left (30 : ℤ) ⌊|p| * 6⌋
      constructor
      · exact le_min (by norm_num) h0
      · omega
    · by_cases h15 : |p| < 15
      · rw [score_of_mid h5 h15]
        have h5le : (5 : ℚ) ≤ |p| := not_lt.1 h5
        have hnn : (0 : ℚ) ≤ (|p| - 5) / 10 * 39 :=
          mul_nonneg (div_nonneg (by linarith) (by norm_num)) (by norm_num)
        have h0 : (0 : ℤ) ≤ ⌊(|p| - 5) / 10 * 39⌋ :=
          Int.le_floor.2 (by push_cast; exact hnn)
        have h39 : ⌊(|p| - 5) / 10 * 39⌋ < 39 := by
          refine Int.floor_lt.2 ?_
          push_cast
          rw [div_mul_eq_mul_div, div_lt_iff₀ (by norm_num : (0:ℚ) < 10)]
          linarith
        omega
      · obtain ⟨heq, h0, h29⟩ := hcrit p (not_lt.1 h15)
        rw [heq]
        omega
  · obtain ⟨heq, h0, h29⟩ := hcrit p hp
    exact ⟨heq, by omega⟩
  · have h15 : (15 : ℚ) ≤ |p| := by linarith
    obtain ⟨heq, -, -⟩ := hcrit p h15
    rw [heq]
    have h1 : (1 : ℚ) ≤ (|p| - 15) / 35 := by
      rw [le_div_iff₀ (by norm_num : (0:ℚ) < 35)]
      linarith
    have h29 : (29 : ℤ) ≤ ⌊(|p| - 15) / 35 * 29⌋ := by
      refine Int.le_floor.2 ?_
      push_cast
      calc (29 : ℚ) = 1 * 29 := by norm_num
      _ ≤ (|p| - 15) / 35 * 29 := by
          exact mul_le_mul_of_nonneg_right h1 (by norm_num)
    rw [min_eq_left h29]
    norm_num
  · norm_num [RiskCalculator.calculate_risk, RiskCalculator.calculate_percent_change,
      RiskCalculator.calculate_risk_score, RiskCalculator.determine_severity,
      RiskCalculator.NORMAL_THRESHOLD, RiskCalculator.WARNING_THRESHOLD,
      pyRound2, pyRoundInt, pyInt, Severity.value, abs_of_nonneg]

/-- Witness for C5 at the concrete input `pct_change = 60`. -/
theorem C5_score_range_witness :
    (0 ≤ RiskCalculator.calculate_risk_score 60 ∧
      RiskCalculator.calculate_risk_score 60 ≤ 100) ∧
    (RiskCalculator.calculate_risk_score 60 = 71 + min 29 ⌊(|(60 : ℚ)| - 15) / 35 * 29⌋ ∧
      71 ≤ RiskCalculator.calculate_risk_score 60) ∧
    RiskCalculator.calculate_risk_score 60 = 100 :=
  ⟨C5_score_range_and_critical_band.1 60,
   C5_score_range_and_critical_band.2.1 60 (by norm_num),
   C5_score_range_and_critical_band.2.2.1 60 (by norm_num)⟩

/-- Claim C6: zero-average guard. For every current value `x`,
`calculate_percent_change x 0 = 0.0` and `calculate_risk x 0` returns
`pct_change = 0.0`, `risk_score = 0`, severity normal. -/
theorem C6_zero_average_guard (x : ℚ) :
    RiskCalculator.calculate_percent_change x 0 = 0 ∧
    RiskCalculator.calculate_risk x 0 = ⟨0, 0, "normal"⟩ := by
  constructor
  · simp [RiskCalculator.calculate_percent_change]
  · norm_num [RiskCalculator.calculate_risk, RiskCalculator.calculate_percent_change,
      RiskCalculator.calculate_risk_score, RiskCalculator.determine_severity,
      RiskCalculator.NORMAL_THRESHOLD, RiskCalculator.WARNING_THRESHOLD,
      pyRound2, pyRoundInt, pyInt, Severity.value]

/-- Claim C7: within one severity band the score is monotone non-decreasing
in `|pct_change|`, and the severity itself is globally monotone in
`|pct_change|` under normal < warning < critical. -/
theorem C7_monotonicity :
    (∀ a b : ℚ, |a| ≤ |b| →
      RiskCalculator.determine_severity a = RiskCalculator.determine_severity b →
      RiskCalculator.calculate_risk_score a ≤ RiskCalculator.calculate_risk_score b) ∧
    (∀ a b : ℚ, |a| ≤ |b| →
      sevRank (RiskCalculator.determine_severity a) ≤
        sevRank (RiskCalculator.determine_severity b)) := by
  constructor
  · intro a b hab hsev
    by_cases hb5 : |b| < 5
    · rw [score_of_lt5 (lt_of_le_of_lt hab hb5), score_of_lt5 hb5]
      exact min_le_min le_rfl (Int.floor_le_floor (by linarith))
    · by_cases hb15 : |b| < 15
      · have hbw : RiskCalculator.determine_severity b = .warning :=
          (severity_warning_iff b).2 ⟨not_lt.1 hb5, hb15⟩
        have haw := (severity_warning_iff a).1 (hsev.trans hbw)
        rw [score_of_mid (not_lt.2 haw.1) haw.2, score_of_mid hb5 hb15]
        refine add_le_add_left (Int.floor_le_floor ?_) 31
        gcongr
      · have hbc : RiskCalculator.determine_severity b = .critical :=
          (severity_critical_iff b).2 (not_lt.1 hb15)
        have hac := (severity_critical_iff a).1 (hsev.trans hbc)
        rw [score_of_ge15 (not_lt.2 hac), score_of_ge15 hb15]
        refine add_le_add_left (min_le_min le_rfl (Int.floor_le_floor ?_)) 71
        gcongr
  · intro a b hab
    by_cases hb5 : |b| < 5
    · rw [(severity_normal_iff a).2 (lt_of_le_of_lt hab hb5), (severity_normal_iff b).2 hb5]
    · by_cases hb15 : |b| < 15
      · rw [(severity_warning_iff b).2 ⟨not_lt.1 hb5, hb15⟩]
        by_cases ha5 : |a| < 5
        · rw [(severity_normal_iff a).2 ha5]
          norm_num [sevRank]
        · rw [(severity_warning_iff a).2 ⟨not_lt.1 ha5, lt_of_le_of_lt hab hb15⟩]
      · rw [(severity_critical_iff b).2 (not_lt.1 hb15)]
        cases RiskCalculator.determine_severity a <;> norm_num [sevRank]

/-- Witness for C7 at the concrete inputs `3` and `4` (same band, normal). -/
theorem C7_monotonicity_witness :
    RiskCalculator.calculate_risk_score 3 ≤ RiskCalculator.calculate_risk_score 4 ∧
    sevRank (RiskCalculator.determine_severity 3) ≤
      sevRank (RiskCalculator.determine_severity 4) :=
  ⟨C7_monotonicity.1 3 4 (by norm_num)
     (by norm_num [RiskCalculator.determine_severity, RiskCalculator.NORMAL_THRESHOLD,
        RiskCalculator.WARNING_THRESHOLD]),
   C7_monotonicity.2 3 4 (by norm_num)⟩

/-- Claim C2: every call to `get_recent_scores_for_average` (hence every
call to `calculate_moving_average`, which always reaches it) and every call
to `save_alert_rule` raises an uncaught `NameError` on the name `timezone`,
which the module references but never imports; none of them returns
normally. -/
theorem C2_timezone_NameError :
    (∀ (store : List RiskScoreItem) (now : PyDate) (metric : String) (days : Nat),
      get_recent_scores_for_average store now metric days =
        .error (.nameError "timezone")) ∧
    (∀ (store : List RiskScoreItem) (now : PyDate) (metric : String) (days : Nat),
      calculate_moving_average store now metric days = .error (.nameError "timezone")) ∧
    (∀ (rules : List AlertRule) (nowIso : List Char) (user_id metric : String)
      (threshold : ℚ) (enabled : Bool),
      save_alert_rule rules nowIso user_id metric threshold enabled =
        .error (.nameError "timezone")) :=
  ⟨fun _ _ _ _ => rfl, fun _ _ _ _ => rfl, fun _ _ _ _ _ _ => rfl⟩

set_option maxRecDepth 4000 in
/-- Claim C1, counterexample: a store holding two observations of
`freight_cost_index` strictly inside the 30-day window before 2024-03-10
whose spec-described half-open-window mean is `5`, on which
`calculate_moving_average` does not return that mean (or anything): it
raises `NameError`. -/
theorem C1_counterexample :
    spec_moving_average exampleStore "freight_cost_index" ⟨2024, 3, 10⟩ 30 = some 5 ∧
    calculate_moving_average exampleStore ⟨2024, 3, 10⟩ "freight_cost_index" 30 =
      .error (.nameError "timezone") ∧
    calculate_moving_average exampleStore ⟨2024, 3, 10⟩ "freight_cost_index" 30 ≠
      .ok (spec_moving_average exampleStore "freight_cost_index" ⟨2024, 3, 10⟩ 30) := by
  refine ⟨?_, rfl, ?_⟩
  · have hf : (exampleStore.filter fun it =>
        it.metric == "freight_cost_index" &&
        lexLe (strftimeDayStart (subDays ⟨2024, 3, 10⟩ 30)) it.timestamp &&
        lexLt it.timestamp (strftimeDayStart ⟨2024, 3, 10⟩)) = exampleStore := by decide
    simp only [spec_moving_average]
    rw [hf]
    norm_num [exampleStore]
  · intro h
    rw [show calculate_moving_average exampleStore ⟨2024, 3, 10⟩ "freight_cost_index" 30 =
        .error (.nameError "timezone") from rfl] at h
    exact Except.noConfusion h

/-- Claim C1 (amended): for every store, as-of date, metric and window,
`calculate_moving_average` never returns the spec-described half-open-window
mean (nor any other value): it raises an uncaught `NameError` before
querying the store. -/
theorem C1_moving_average_never_returns_mean (store : List RiskScoreItem)
    (now : PyDate) (metric : String) (days : Nat) :
    calculate_moving_average store now metric days = .error (.nameError "timezone") ∧
    calculate_moving_average store now metric days ≠
      .ok (spec_moving_average store metric now days) := by
  refine ⟨rfl, ?_⟩
  intro h
  rw [show calculate_moving_average store now metric days =
      .error (.nameError "timezone") from rfl] at h
  exact Except.noConfusion h

/-- Claim C8: on an empty history `calculate_moving_average` was meant to
return the absent value (the code's own `if not recent_scores: return None`
branch and the spec agree), but the call never gets there — it raises
`NameError` on the unbound name `timezone`, so it does not return `none`
(and in particular not `0`). -/
theorem C8_empty_history_raises_instead_of_none :
    calculate_moving_average [] ⟨2024, 3, 10⟩ "freight_cost_index" 30 =
      .error (.nameError "timezone") ∧
    calculate_moving_average [] ⟨2024, 3, 10⟩ "freight_cost_index" 30 ≠ .ok none := by
  refine ⟨rfl, ?_⟩
  intro h
  rw [show calculate_moving_average [] ⟨2024, 3, 10⟩ "freight_cost_index" 30 =
      .error (.nameError "timezone") from rfl] at h
  exact Except.noConfusion h

/-! ## Lemmas about `normalize_timestamp` -/

lemma hasChar_append (c : Char) (xs ys : List Char) :
    hasChar c (xs ++ ys) = (hasChar c xs || hasChar c ys) := by
  induction xs with
  | nil => simp [hasChar]
  | cons a r ih => simp [hasChar, ih, Bool.or_assoc]

lemma nt_of_iso {s : List Char} (h : isoHeuristic s = true) :
    normalize_timestamp s = s := by
  simp [normalize_timestamp, h]

lemma nt_of_bareDate {s : List Char} (h1 : isoHeuristic s = false)
    (h2 : bareDateShape s = true) :
    normalize_timestamp s = s ++ "T00:00:00Z".toList := by
  simp [normalize_timestamp, h1, h2]

lemma nt_of_parse {s : List Char} {dt : PyDateTime} (h1 : isoHeuristic s = false)
    (h2 : bareDateShape s = false) (h3 : tryFormats s = some dt) :
    normalize_timestamp s = strftimeISO dt ++ ['Z'] := by
  simp [normalize_timestamp, h1, h2, h3]

lemma nt_of_unparseable {s : List Char} (h1 : isoHeuristic s = false)
    (h2 : bareDateShape s = false) (h3 : tryFormats s = none) :
    normalize_timestamp s = s := by
  simp [normalize_timestamp, h1, h2, h3]

lemma isoHeuristic_of_TZ {s : List Char} (hT : hasChar 'T' s = true)
    (hZ : hasChar 'Z' s = true) : isoHeuristic s = true := by
  simp [isoHeuristic, hT, hZ]

lemma hasChar_T_suffix (s : List Char) :
    hasChar 'T' (s ++ "T00:00:00Z".toList) = true := by
  rw [hasChar_append, show hasChar 'T' "T00:00:00Z".toList = true from rfl, Bool.or_true]

lemma hasChar_Z_suffix (s : List Char) :
    hasChar 'Z' (s ++ "T00:00:00Z".toList) = true := by
  rw [hasChar_append, show hasChar 'Z' "T00:00:00Z".toList = true from rfl, Bool.or_true]

lemma hasChar_T_strftime (t : PyDateTime) : hasChar 'T' (strftimeISO t) = true := by
  simp [strftimeISO, hasChar_append, hasChar]

lemma hasChar_Z_singleton (l : List Char) : hasChar 'Z' (l ++ ['Z']) = true := by
  rw [hasChar_append, show hasChar 'Z' ['Z'] = true from rfl, Bool.or_true]

lemma isDigitC_dchar (n : Nat) : isDigitC (dchar n) = true := by
  unfold dchar
  repeat' split
  all_goals decide

lemma isCanonicalZ_strftime (t : PyDateTime) :
    isCanonicalZ (strftimeISO t ++ ['Z']) = true := by
  simp [strftimeISO, pad2, pad4, isCanonicalZ, isDigitC_dchar]

/-- Claim C10: `normalize_timestamp` is idempotent — every output (a
canonicalized timestamp or a passed-through string) is a fixed point. -/
theorem C10_normalize_timestamp_idempotent (s : List Char) :
    normalize_timestamp (normalize_timestamp s) = normalize_timestamp s := by
  cases h1 : isoHeuristic s with
  | true => rw [nt_of_iso h1, nt_of_iso h1]
  | false =>
    cases h2 : bareDateShape s with
    | true =>
      rw [nt_of_bareDate h1 h2]
      exact nt_of_iso (isoHeuristic_of_TZ (hasChar_T_suffix s) (hasChar_Z_suffix s))
    | false =>
      cases h3 : tryFormats s with
      | some dt =>
        rw [nt_of_parse h1 h2 h3]
        refine nt_of_iso (isoHeuristic_of_TZ ?_ (hasChar_Z_singleton _))
        rw [hasChar_append, hasChar_T_strftime, Bool.true_or]
      | none => rw [nt_of_unparseable h1 h2 h3, nt_of_unparseable h1 h2 h3]

/-- Claim C9 (amended): `normalize_timestamp` is total; it maps
`"2024-03-01"` to `"2024-03-01T00:00:00Z"` and leaves
`"2024-03-01T12:00:00Z"` unchanged; a string matching the already-ISO
heuristic is returned unchanged; any other 10-character string with exactly
two dashes — whether or not it is a valid date — gets `T00:00:00Z`
appended; any other string parseable by one of the known formats is
reformatted to canonical `YYYY-MM-DDTHH:MM:SSZ`; every remaining string is
returned unchanged. -/
theorem C9_normalize_timestamp_behaviour :
    normalize_timestamp "2024-03-01".toList = "2024-03-01T00:00:00Z".toList ∧
    normalize_timestamp "2024-03-01T12:00:00Z".toList = "2024-03-01T12:00:00Z".toList ∧
    (∀ s : List Char, isoHeuristic s = true → normalize_timestamp s = s) ∧
    (∀ s : List Char, isoHeuristic s = false → bareDateShape s = true →
      normalize_timestamp s = s ++ "T00:00:00Z".toList) ∧
    (∀ (s : List Char) (dt : PyDateTime), isoHeuristic s = false →
      bareDateShape s = false → tryFormats s = some dt →
      normalize_timestamp s = strftimeISO dt ++ ['Z'] ∧
      isCanonicalZ (normalize_timestamp s) = true) ∧
    (∀ s : List Char, isoHeuristic s = false → bareDateShape s = false →
      tryFormats s = none → normalize_timestamp s = s) := by
  refine ⟨by decide, by decide, fun s h => nt_of_iso h,
    fun s h1 h2 => nt_of_bareDate h1 h2,
    fun s dt h1 h2 h3 => ⟨nt_of_parse h1 h2 h3, ?_⟩,
    fun s h1 h2 h3 => nt_of_unparseable h1 h2 h3⟩
  rw [nt_of_parse h1 h2 h3]
  exact isCanonicalZ_strftime dt

/-- Witness for C9 at `"2024-02-30"` (bare-date shape, invalid date),
`"2024-3-1"` (parseable, reformatted) and `"garbage"` (unparseable). -/
theorem C9_normalize_timestamp_witness :
    normalize_timestamp "2024-02-30".toList = "2024-02-30".toList ++ "T00:00:00Z".toList ∧
    (normalize_timestamp "2024-3-1".toList = strftimeISO ⟨2024, 3, 1, 0, 0, 0⟩ ++ ['Z'] ∧
      isCanonicalZ (normalize_timestamp "2024-3-1".toList) = true) ∧
    normalize_timestamp "garbage".toList = "garbage".toList :=
  ⟨C9_normalize_timestamp_behaviour.2.2.2.1 _ (by decide) (by decide),
   C9_normalize_timestamp_behaviour.2.2.2.2.1 _ ⟨2024, 3, 1, 0, 0, 0⟩
     (by decide) (by decide) (by decide),
   C9_normalize_timestamp_behaviour.2.2.2.2.2 _ (by decide) (by decide) (by decide)⟩

/-- Claim C9, counterexample: `"2024-02-30"` is not one of the claim's two
concrete strings, is not parseable by any of the known formats (the day is
out of range for February), and does not match the already-ISO heuristic,
so by the claim it would be returned unchanged — but `normalize_timestamp`
appends `T00:00:00Z` to it, because the second branch tests only
`len == 10 and count('-') == 2` without validating the date. -/
theorem C9_counterexample :
    tryFormats "2024-02-30".toList = none ∧
    isoHeuristic "2024-02-30".toList = false ∧
    normalize_timestamp "2024-02-30".toList = "2024-02-30T00:00:00Z".toList ∧
    normalize_timestamp "2024-02-30".toList ≠ "2024-02-30".toList :=
  ⟨by decide, by decide, by decide, by decide⟩

end EconSentinel
